import Mathlib

/-!
Verification of `branding/generator/generate_icons.py`.

The script converts one source SVG into a fixed list of PNG icon sizes.
We shallowly embed it as pure Lean functions:

* the third-party library calls are abstract oracles bundled in a `Libs`
  structure: `svg2png` models `cairosvg.svg2png(url, output_width,
  output_height)` and `openImg` models `Image.open(BytesIO(..))`; both are
  pure computations that either return a value or raise (`Except String`)
  with no filesystem effect. `save` models `image.save(output_path, PNG,
  optimize=True)`, which is not atomic: Pillow first opens `output_path`
  with mode w+b — creating it or truncating any existing file — and only
  then encodes and writes, so its three outcomes are modelled separately:
  completion (a well-formed file is written), a failure of the initial open
  (the path is untouched), and a failure raised after the open during
  encode/write (a truncated partial blob is left at the path);
* the filesystem of output files is an association list from path to `File`,
  where a file is either a well-formed raster image or a raw partial blob;
  the source SVG is read only through the `svg2png` oracle and is never part
  of this writable state;
* console output is a list of `Ev` events, one per `print`-site of the
  script (the post-loop trailer block is one event), with `renderEv` giving
  the literal printed lines;
* paths are taken relative to the script directory, so the output directory
  is the literal string "icons" and the source is "icons/icon.svg".
-/

namespace GenIcons

/-- Raster image: pixel dimensions plus abstract encoded payload. -/
structure Png where
  width : Nat
  height : Nat
  data : List Nat
deriving DecidableEq, Repr

/-- Outcome of `image.save(output_path, PNG, optimize=True)`. Pillow opens
the target with mode w+b (truncating it) before encoding, so a raising save
is not atomic: `ok out` means encode and write completed and the file now
holds the encoded image `out`; `openFail e` means the initial open itself
raised `e` and the path was not touched; `writeFail e part` means the call
raised `e` after opening and truncating the path, leaving the partial
bytes `part` there. -/
inductive SaveResult where
  | ok (out : Png)
  | openFail (e : String)
  | writeFail (e : String) (part : List Nat)
deriving DecidableEq, Repr

/-- Abstract behaviour of the third-party libraries used by the script.
`svg2png path size` models `cairosvg.svg2png(url=path, output_width=size,
output_height=size)`; `openImg` models `Image.open(BytesIO(png_bytes))`,
a pure decode; `save img path` models `img.save(path, PNG, optimize=True)`
with the non-atomic outcomes of `SaveResult`. An `Except.error e` models
the call raising exception `e`. -/
structure Libs where
  svg2png : String → Nat → Except String Png
  openImg : Png → Except String Png
  save : Png → String → SaveResult

/-- Content of one file on disk: a well-formed raster image, or a raw
(possibly truncated) byte blob left behind by an interrupted write. -/
inductive File where
  | png (img : Png)
  | blob (data : List Nat)
deriving DecidableEq, Repr

/-- Writable filesystem state: the output files, as an association list from
path to file content. -/
abbrev FS := List (String × File)

/-- Content of the file at `q`, if present. -/
def FS.lookup : FS → String → Option File
  | [], _ => none
  | (p, f) :: rest, q => if p = q then some f else FS.lookup rest q

/-- Write `f` at path `p`, overwriting any existing file of that name. -/
def FS.write (fs : FS) (p : String) (f : File) : FS :=
  (p, f) :: fs.filter (fun e => e.1 != p)

/-- Console events, one per `print`-site of the script. -/
inductive Ev where
  | headerMain
  | headerSource (src : String)
  | blank
  | generated (path : String) (size : Nat)
  | failed (path : String) (err : String)
  | svgNotFound (path : String)
  | depsMissing
  | trailerEv
deriving DecidableEq, Repr

/-- Literal console lines printed for one event. -/
def renderEv : Ev → List String
  | .headerMain => ["Generating Chrome Extension icons..."]
  | .headerSource s => ["Source: " ++ s]
  | .blank => [""]
  | .generated p s => ["✓ Generated " ++ p ++ " (" ++ toString s ++ "x" ++ toString s ++ ")"]
  | .failed p e => ["✗ Failed to generate " ++ p ++ ": " ++ e]
  | .svgNotFound p => ["✗ SVG file not found: " ++ p]
  | .depsMissing => ["Missing dependencies. Please install:", "pip install Pillow cairosvg"]
  | .trailerEv =>
      ["", "Icon generation complete!", "\nManifest.json icon configuration:",
       "\"icons\": \x7b",
       "  \"16\": \"icons/icon16.png\",",
       "  \"32\": \"icons/icon32.png\",",
       "  \"48\": \"icons/icon48.png\",",
       "  \"128\": \"icons/icon128.png\"",
       "\x7d"]

/-- Full rendered console transcript. -/
def renderOut (evs : List Ev) : List String :=
  (evs.map renderEv).flatten

/-- Embedding of `svg_to_png(svg_path, output_path, size)`: rasterize,
decode, then save; the `try` body and the `except` branch are modelled by
matching on the oracles. A failure of the rasterization or the decode
leaves the filesystem untouched; a failure inside the save after it has
truncated the target leaves the partial blob there, per `SaveResult`.
Returns the new filesystem and the printed events. -/
def svg_to_png (libs : Libs) (svg_path output_path : String) (size : Nat)
    (fs : FS) : FS × List Ev :=
  match libs.svg2png svg_path size with
  | .error e => (fs, [.failed output_path e])
  | .ok png =>
    match libs.openImg png with
    | .error e => (fs, [.failed output_path e])
    | .ok image =>
      match libs.save image output_path with
      | .ok out => (fs.write output_path (File.png out), [.generated output_path size])
      | .openFail e => (fs, [.failed output_path e])
      | .writeFail e part => (fs.write output_path (File.blob part), [.failed output_path e])

/-- The hard-coded target list `sizes` of the script. -/
def sizes : List (Nat × String) :=
  [(16, "icon16.png"), (32, "icon32.png"), (48, "icon48.png"),
   (128, "icon128.png"), (256, "icon256.png"), (440, "icon440.png")]

/-- Output directory (`script_dir / "icons"`, relative to the script). -/
def icons_dir : String := "icons"

/-- Source SVG path (`icons_dir / "icon.svg"`). -/
def svg_file : String := icons_dir ++ "/icon.svg"

/-- The `for size, filename in sizes:` loop of `main`, over an arbitrary
target list. -/
def runEntries (libs : Libs) : FS → List (Nat × String) → FS × List Ev
  | fs, [] => (fs, [])
  | fs, (size, filename) :: rest =>
    let step := svg_to_png libs svg_file (icons_dir ++ "/" ++ filename) size fs
    let tail := runEntries libs step.1 rest
    (tail.1, step.2 ++ tail.2)

/-- Embedding of `main()`. `svgExists` models `svg_file.exists()`. -/
def main (libs : Libs) (svgExists : Bool) (fs : FS) : FS × List Ev :=
  if svgExists then
    let body := runEntries libs fs sizes
    (body.1, [Ev.headerMain, Ev.headerSource svg_file, Ev.blank] ++ body.2 ++ [Ev.trailerEv])
  else
    (fs, [Ev.svgNotFound svg_file])

/-- Embedding of the whole script run: the import guard (`depsOk` models the
`import` block succeeding; on failure the script prints guidance and calls
`sys.exit(1)`), then `main()`. Result: final filesystem, console events, and
process exit status. -/
def runScript (libs : Libs) (depsOk svgExists : Bool) (fs : FS) :
    FS × List Ev × Nat :=
  if depsOk then
    let r := main libs svgExists fs
    (r.1, r.2, 0)
  else
    (fs, [Ev.depsMissing], 1)

/-- Encoded image that a call of `svg_to_png` writing to `o` would produce:
`some out` when all three library steps succeed, `none` when any raises. -/
def producedImg (libs : Libs) (p o : String) (s : Nat) : Option Png :=
  match libs.svg2png p s with
  | .error _ => none
  | .ok png =>
    match libs.openImg png with
    | .error _ => none
    | .ok image =>
      match libs.save image o with
      | .ok out => some out
      | .openFail _ => none
      | .writeFail _ _ => none

/-- Whether generation of an entry with this source, output path and size
succeeds. -/
def succeeds (libs : Libs) (p o : String) (s : Nat) : Bool :=
  (producedImg libs p o s).isSome

/-- Status event printed by `svg_to_png` for the given arguments. -/
def evOf (libs : Libs) (p o : String) (s : Nat) : Ev :=
  match libs.svg2png p s with
  | .error e => .failed o e
  | .ok png =>
    match libs.openImg png with
    | .error e => .failed o e
    | .ok image =>
      match libs.save image o with
      | .ok _ => .generated o s
      | .openFail e => .failed o e
      | .writeFail e _ => .failed o e

/-- Contracts of the libraries that the script relies on for sizing:
`cairosvg.svg2png` with explicit `output_width = output_height = size`
produces a `size × size` raster, and the PIL decode and encode steps
preserve pixel dimensions. -/
def dimContract (libs : Libs) : Prop :=
  (∀ p s png, libs.svg2png p s = .ok png → png.width = s ∧ png.height = s) ∧
  (∀ a b, libs.openImg a = .ok b → b.width = a.width ∧ b.height = a.height) ∧
  (∀ a o out, libs.save a o = SaveResult.ok out →
    out.width = a.width ∧ out.height = a.height)

/-- Whether an event is a per-entry success confirmation. -/
def isGenerated : Ev → Bool
  | .generated _ _ => true
  | _ => false

/-- Whether an event is a per-entry status line (success or failure). -/
def isStatusEv : Ev → Bool
  | .generated _ _ => true
  | .failed _ _ => true
  | _ => false

theorem svg_to_png_snd (libs : Libs) (p o : String) (s : Nat) (fs : FS) :
    (svg_to_png libs p o s fs).2 = [evOf libs p o s] := by
  unfold svg_to_png evOf
  cases h1 : libs.svg2png p s with
  | error e => rfl
  | ok png =>
    cases h2 : libs.openImg png with
    | error e => simp [h2]
    | ok image =>
      cases h3 : libs.save image o with
      | ok out => simp [h2, h3]
      | openFail e => simp [h2, h3]
      | writeFail e part => simp [h2, h3]

theorem svg_to_png_of_some (libs : Libs) (p o : String) (s : Nat) (fs : FS)
    (img : Png) (h : producedImg libs p o s = some img) :
    svg_to_png libs p o s fs = (fs.write o (File.png img), [Ev.generated o s]) := by
  unfold producedImg at h
  unfold svg_to_png
  cases h1 : libs.svg2png p s with
  | error e => rw [h1] at h; exact absurd h (by simp)
  | ok png =>
    rw [h1] at h
    cases h2 : libs.openImg png with
    | error e => simp [h2] at h
    | ok image =>
      cases h3 : libs.save image o with
      | ok out => simp [h2, h3] at h ⊢; rw [h]
      | openFail e => simp [h2, h3] at h
      | writeFail e part => simp [h2, h3] at h

theorem svg_to_png_of_none (libs : Libs) (p o : String) (s : Nat) (fs : FS)
    (h : producedImg libs p o s = none) :
    (∃ e, (svg_to_png libs p o s fs).2 = [Ev.failed o e]) ∧
      ((svg_to_png libs p o s fs).1 = fs ∨
        ∃ part, (svg_to_png libs p o s fs).1 = fs.write o (File.blob part)) := by
  unfold producedImg at h
  unfold svg_to_png
  cases h1 : libs.svg2png p s with
  | error e => exact ⟨⟨e, rfl⟩, Or.inl rfl⟩
  | ok png =>
    rw [h1] at h
    cases h2 : libs.openImg png with
    | error e => exact ⟨⟨e, by simp [h2]⟩, Or.inl (by simp [h2])⟩
    | ok image =>
      cases h3 : libs.save image o with
      | ok out => simp [h2, h3] at h
      | openFail e => exact ⟨⟨e, by simp [h2, h3]⟩, Or.inl (by simp [h2, h3])⟩
      | writeFail e part =>
        exact ⟨⟨e, by simp [h2, h3]⟩, Or.inr ⟨part, by simp [h2, h3]⟩⟩

theorem lookup_write_self (fs : FS) (p : String) (f : File) :
    FS.lookup (FS.write fs p f) p = some f := by
  simp [FS.write, FS.lookup]

theorem lookup_filter_ne (fs : FS) (p q : String) (h : ¬q = p) :
    FS.lookup (fs.filter (fun e => e.1 != p)) q = FS.lookup fs q := by
  induction fs with
  | nil => rfl
  | cons hd tl ih =>
    obtain ⟨a, b⟩ := hd
    by_cases hp : a = p
    · subst hp
      have ha : ¬a = q := fun hq => h (hq ▸ rfl)
      simp [List.filter_cons, FS.lookup, ha, ih]
    · by_cases hq : a = q
      · simp [List.filter_cons, hp, FS.lookup, hq, h]
      · simp [List.filter_cons, hp, FS.lookup, hq, ih]

theorem lookup_write_ne (fs : FS) (p q : String) (f : File) (h : ¬q = p) :
    FS.lookup (FS.write fs p f) q = FS.lookup fs q := by
  unfold FS.write
  simp only [FS.lookup]
  rw [if_neg (fun hq => h hq.symm)]
  exact lookup_filter_ne fs p q h

theorem svg_to_png_frame (libs : Libs) (p o : String) (s : Nat) (fs : FS)
    (q : String) (h : ¬q = o) :
    FS.lookup ((svg_to_png libs p o s fs).1) q = FS.lookup fs q := by
  unfold svg_to_png
  cases h1 : libs.svg2png p s with
  | error e => rfl
  | ok png =>
    cases h2 : libs.openImg png with
    | error e => simp [h2]
    | ok image =>
      cases h3 : libs.save image o with
      | ok out => simp [h2, h3]; exact lookup_write_ne fs o q (File.png out) h
      | openFail e => simp [h2, h3]
      | writeFail e part =>
        simp [h2, h3]; exact lookup_write_ne fs o q (File.blob part) h

theorem producedImg_dims (libs : Libs) (hc : dimContract libs) (p o : String)
    (s : Nat) (img : Png) (h : producedImg libs p o s = some img) :
    img.width = s ∧ img.height = s := by
  unfold producedImg at h
  cases h1 : libs.svg2png p s with
  | error e => rw [h1] at h; simp at h
  | ok png =>
    rw [h1] at h
    cases h2 : libs.openImg png with
    | error e => simp [h2] at h
    | ok image =>
      cases h3 : libs.save image o with
      | openFail e => simp [h2, h3] at h
      | writeFail e part => simp [h2, h3] at h
      | ok out =>
        simp [h2, h3] at h
        obtain ⟨hw, hh⟩ := hc.1 p s png h1
        obtain ⟨hw2, hh2⟩ := hc.2.1 png image h2
        obtain ⟨hw3, hh3⟩ := hc.2.2 image o out h3
        subst h
        exact ⟨(hw3.trans hw2).trans hw, (hh3.trans hh2).trans hh⟩

theorem isGenerated_evOf (libs : Libs) (p o : String) (s : Nat) :
    isGenerated (evOf libs p o s) = succeeds libs p o s := by
  unfold evOf succeeds producedImg
  cases h1 : libs.svg2png p s with
  | error e => rfl
  | ok png =>
    cases h2 : libs.openImg png with
    | error e => simp [h2, isGenerated]
    | ok image =>
      cases h3 : libs.save image o with
      | ok out => simp [h2, h3, isGenerated]
      | openFail e => simp [h2, h3, isGenerated]
      | writeFail e part => simp [h2, h3, isGenerated]

theorem isStatusEv_evOf (libs : Libs) (p o : String) (s : Nat) :
    isStatusEv (evOf libs p o s) = true := by
  unfold evOf
  cases h1 : libs.svg2png p s with
  | error e => rfl
  | ok png =>
    cases h2 : libs.openImg png with
    | error e => simp [h2, isStatusEv]
    | ok image =>
      cases h3 : libs.save image o with
      | ok out => simp [h2, h3, isStatusEv]
      | openFail e => simp [h2, h3, isStatusEv]
      | writeFail e part => simp [h2, h3, isStatusEv]

theorem runEntries_snd (libs : Libs) (fs : FS) (ts : List (Nat × String)) :
    (runEntries libs fs ts).2
      = ts.map (fun e => evOf libs svg_file (icons_dir ++ "/" ++ e.2) e.1) := by
  induction ts generalizing fs with
  | nil => rfl
  | cons hd tl ih =>
    obtain ⟨s, fn⟩ := hd
    simp only [runEntries, List.map_cons]
    rw [svg_to_png_snd, ih]
    rfl

theorem runEntries_frame (libs : Libs) (fs : FS) (ts : List (Nat × String))
    (q : String) (h : ∀ e ∈ ts, ¬(icons_dir ++ "/" ++ e.2 = q)) :
    FS.lookup (runEntries libs fs ts).1 q = FS.lookup fs q := by
  induction ts generalizing fs with
  | nil => rfl
  | cons hd tl ih =>
    obtain ⟨s, fn⟩ := hd
    simp only [runEntries]
    rw [ih _ (fun e he => h e (List.mem_cons_of_mem _ he))]
    exact svg_to_png_frame libs svg_file _ s fs q
      (fun hq => h (s, fn) (List.mem_cons_self _ _) hq.symm)

theorem runEntries_lookup_of_succeeds (libs : Libs) (fs : FS)
    (ts : List (Nat × String)) (s : Nat) (fn : String) (img : Png)
    (hnd : (ts.map (fun e => icons_dir ++ "/" ++ e.2)).Nodup)
    (hmem : (s, fn) ∈ ts)
    (himg : producedImg libs svg_file (icons_dir ++ "/" ++ fn) s = some img) :
    FS.lookup (runEntries libs fs ts).1 (icons_dir ++ "/" ++ fn)
      = some (File.png img) := by
  induction ts generalizing fs with
  | nil => cases hmem
  | cons hd tl ih =>
    obtain ⟨s0, fn0⟩ := hd
    rcases List.mem_cons.1 hmem with heq | htl
    · obtain ⟨hs, hfn⟩ := Prod.mk.injEq .. ▸ heq
      subst hs; subst hfn
      simp only [runEntries]
      have hnotin : (icons_dir ++ "/" ++ fn) ∉ tl.map (fun e => icons_dir ++ "/" ++ e.2) :=
        (List.nodup_cons.1 hnd).1
      rw [runEntries_frame libs _ tl _
        (fun e he hq => hnotin (by rw [← hq]; exact List.mem_map_of_mem _ he))]
      rw [svg_to_png_of_some libs svg_file _ s fs img himg]
      exact lookup_write_self fs _ (File.png img)
    · simp only [runEntries]
      exact ih _ (List.nodup_cons.1 hnd).2 htl

theorem count_status_map (libs : Libs) (ts : List (Nat × String)) :
    ((ts.map (fun e => evOf libs svg_file (icons_dir ++ "/" ++ e.2) e.1)).filter
      isStatusEv).length = ts.length := by
  induction ts with
  | nil => rfl
  | cons hd tl ih =>
    simp only [List.map_cons, List.filter_cons, isStatusEv_evOf]
    simp [ih]

theorem count_generated_map (libs : Libs) (ts : List (Nat × String)) :
    ((ts.map (fun e => evOf libs svg_file (icons_dir ++ "/" ++ e.2) e.1)).filter
      isGenerated).length
      = (ts.filter (fun e => succeeds libs svg_file (icons_dir ++ "/" ++ e.2) e.1)).length := by
  induction ts with
  | nil => rfl
  | cons hd tl ih =>
    simp only [List.map_cons, List.filter_cons, isGenerated_evOf]
    cases hs : succeeds libs svg_file (icons_dir ++ "/" ++ hd.2) hd.1 <;> simp [hs, ih]

theorem main_lookup_of_succeeds (libs : Libs) (fs : FS) (s : Nat) (fn : String)
    (img : Png) (hmem : (s, fn) ∈ sizes)
    (himg : producedImg libs svg_file (icons_dir ++ "/" ++ fn) s = some img) :
    FS.lookup (main libs true fs).1 (icons_dir ++ "/" ++ fn)
      = some (File.png img) := by
  simp only [main, if_true]
  exact runEntries_lookup_of_succeeds libs fs sizes s fn img (by decide) hmem himg

/-- Oracle where every library call succeeds and the sizing contracts hold. -/
def goodLibs : Libs where
  svg2png := fun _ s => .ok ⟨s, s, [0]⟩
  openImg := fun img => .ok img
  save := fun img _ => .ok img

/-- Second all-succeeding oracle producing different encoded bytes. -/
def otherLibs : Libs where
  svg2png := fun _ s => .ok ⟨s, s, [1, 2]⟩
  openImg := fun img => .ok img
  save := fun img _ => .ok ⟨img.width, img.height, [3]⟩

/-- Oracle where every rasterization call raises. -/
def failLibs : Libs where
  svg2png := fun _ _ => .error "boom"
  openImg := fun img => .ok img
  save := fun img _ => .ok img

/-- Oracle where rasterization and decode succeed but every save raises
after truncating the target, leaving the two leading PNG magic bytes. -/
def truncLibs : Libs where
  svg2png := fun _ s => .ok ⟨s, s, [0]⟩
  openImg := fun img => .ok img
  save := fun _ _ => .writeFail "No space left on device" [137, 80]

theorem goodLibs_dimContract : dimContract goodLibs := by
  refine ⟨?_, ?_, ?_⟩
  · intro p s png h
    simp [goodLibs] at h
    rw [← h]
    exact ⟨rfl, rfl⟩
  · intro a b h
    simp [goodLibs] at h
    rw [← h]
    exact ⟨rfl, rfl⟩
  · intro a o out h
    simp [goodLibs, SaveResult.ok.injEq] at h
    rw [← h]
    exact ⟨rfl, rfl⟩

theorem otherLibs_dimContract : dimContract otherLibs := by
  refine ⟨?_, ?_, ?_⟩
  · intro p s png h
    simp [otherLibs] at h
    rw [← h]
    exact ⟨rfl, rfl⟩
  · intro a b h
    simp [otherLibs] at h
    rw [← h]
    exact ⟨rfl, rfl⟩
  · intro a o out h
    simp [otherLibs, SaveResult.ok.injEq] at h
    rw [← h]
    exact ⟨rfl, rfl⟩

/-- C1: every exception raised by the library calls while rasterizing,
decoding or saving one entry is caught inside `svg_to_png`, which then
emits a single failure event naming the output path and the underlying
error (leaving the filesystem untouched, except that a save raising after
its truncating open leaves a partial blob at the entry's own path); on
success it emits the confirmation event; and in a full run every entry of
the target list still yields exactly one status event, so no per-item error
propagates or aborts the batch. -/
theorem c1_per_item_error_isolation :
    (∀ (libs : Libs) (p o : String) (s : Nat) (fs : FS),
      (∃ img, svg_to_png libs p o s fs
          = (fs.write o (File.png img), [Ev.generated o s])) ∨
      (∃ e, svg_to_png libs p o s fs = (fs, [Ev.failed o e])) ∨
      (∃ e part, svg_to_png libs p o s fs
          = (fs.write o (File.blob part), [Ev.failed o e]))) ∧
    (∀ (libs : Libs) (fs : FS),
      ((main libs true fs).2.filter isStatusEv).length = sizes.length) := by
  constructor
  · intro libs p o s fs
    unfold svg_to_png
    cases h1 : libs.svg2png p s with
    | error e => exact Or.inr (Or.inl ⟨e, rfl⟩)
    | ok png =>
      cases h2 : libs.openImg png with
      | error e => exact Or.inr (Or.inl ⟨e, by simp [h2]⟩)
      | ok image =>
        cases h3 : libs.save image o with
        | ok out => exact Or.inl ⟨out, by simp [h2, h3]⟩
        | openFail e => exact Or.inr (Or.inl ⟨e, by simp [h2, h3]⟩)
        | writeFail e part => exact Or.inr (Or.inr ⟨e, part, by simp [h2, h3]⟩)
  · intro libs fs
    simp only [main, if_true, List.filter_append, List.length_append]
    rw [runEntries_snd, count_status_map]
    simp [isStatusEv]

/-- C2: for every entry of the target list whose generation succeeds, the
file at its output path after the run is a well-formed raster image with
width and height both equal to the requested size, given the sizing
contracts of the libraries. -/
theorem c2_generated_dimensions (libs : Libs) (fs : FS) (s : Nat) (fn : String)
    (hc : dimContract libs) (hmem : (s, fn) ∈ sizes)
    (hs : succeeds libs svg_file (icons_dir ++ "/" ++ fn) s = true) :
    ∃ img, FS.lookup (main libs true fs).1 (icons_dir ++ "/" ++ fn)
        = some (File.png img) ∧ img.width = s ∧ img.height = s := by
  unfold succeeds at hs
  obtain ⟨img, himg⟩ := Option.isSome_iff_exists.1 hs
  exact ⟨img, main_lookup_of_succeeds libs fs s fn img hmem himg,
    producedImg_dims libs hc svg_file (icons_dir ++ "/" ++ fn) s img himg⟩

theorem c2_generated_dimensions_witness :
    ((16, "icon16.png") ∈ sizes ∧
      succeeds goodLibs svg_file (icons_dir ++ "/" ++ "icon16.png") 16 = true) ∧
    ∃ img, FS.lookup (main goodLibs true []).1 (icons_dir ++ "/" ++ "icon16.png")
        = some (File.png img) ∧ img.width = 16 ∧ img.height = 16 :=
  ⟨⟨by decide, rfl⟩,
   c2_generated_dimensions goodLibs [] 16 "icon16.png" goodLibs_dimContract
     (by decide) rfl⟩

/-- C3: when the source SVG does not exist, `main` prints only the fatal
"SVG file not found" message, performs no generation attempt, and leaves the
filesystem unchanged, so zero output files are produced. -/
theorem c3_missing_source (libs : Libs) (fs : FS) :
    main libs false fs = (fs, [Ev.svgNotFound svg_file]) := by
  simp [main]

/-- C4: the target list is exactly the six pairs of the script, and in a run
with the source present the console transcript is the header followed by
exactly one status event per entry, in list order, followed by the trailer —
so each entry is attempted exactly once and fully in order. -/
theorem c4_targets_and_order :
    sizes = [(16, "icon16.png"), (32, "icon32.png"), (48, "icon48.png"),
      (128, "icon128.png"), (256, "icon256.png"), (440, "icon440.png")] ∧
    ∀ (libs : Libs) (fs : FS),
      (main libs true fs).2
        = [Ev.headerMain, Ev.headerSource svg_file, Ev.blank]
          ++ sizes.map (fun e => evOf libs svg_file (icons_dir ++ "/" ++ e.2) e.1)
          ++ [Ev.trailerEv] := by
  refine ⟨rfl, fun libs fs => ?_⟩
  simp only [main, if_true]
  rw [runEntries_snd]

/-- C5: in every run with the source present, the number of confirmation
events emitted equals the number of entries of the target list whose
generation succeeded (the count that the spec contract for generate
returns, implicitly via those confirmation events). -/
theorem c5_success_count (libs : Libs) (fs : FS) :
    ((main libs true fs).2.filter isGenerated).length
      = (sizes.filter
          (fun e => succeeds libs svg_file (icons_dir ++ "/" ++ e.2) e.1)).length := by
  simp only [main, if_true, List.filter_append, List.length_append]
  rw [runEntries_snd, count_generated_map]
  simp [isGenerated]

/-- C6 counterexample: with an oracle whose save raises "No space left on
device" after its truncating open (rasterization and decode succeeding),
the entry for (16, icon16.png) fails — its status event is the failure
notice — yet its output path, which held a well-formed 16×16 image before
the call, afterwards holds the truncated two-byte blob: a failed entry
leaves a partial, corrupt file, so the entry is not atomic in effect. -/
theorem c6_entry_atomicity_cex :
    FS.lookup [("icons/icon16.png", File.png ⟨16, 16, [9]⟩)] "icons/icon16.png"
      = some (File.png ⟨16, 16, [9]⟩) ∧
    (svg_to_png truncLibs svg_file "icons/icon16.png" 16
        [("icons/icon16.png", File.png ⟨16, 16, [9]⟩)]).2
      = [Ev.failed "icons/icon16.png" "No space left on device"] ∧
    FS.lookup (svg_to_png truncLibs svg_file "icons/icon16.png" 16
        [("icons/icon16.png", File.png ⟨16, 16, [9]⟩)]).1 "icons/icon16.png"
      = some (File.blob [137, 80]) :=
  ⟨rfl, rfl, rfl⟩

/-- C6 amended: each entry is atomic in effect except inside the save step:
either a correctly-sized well-formed file is written (success), or the
entry fails with its output path untouched (failure while rasterizing,
decoding, or opening the output file for writing), or — when the save call
raises after opening and truncating the output path — the entry fails
leaving a partial blob at its own path; given the sizing contracts of the
libraries. Other entries are unaffected in every case. -/
theorem c6_entry_atomicity (libs : Libs) (p o : String) (s : Nat) (fs : FS)
    (hc : dimContract libs) :
    (∃ img, (svg_to_png libs p o s fs).1 = fs.write o (File.png img) ∧
      img.width = s ∧ img.height = s ∧ succeeds libs p o s = true) ∨
    ((svg_to_png libs p o s fs).1 = fs ∧ succeeds libs p o s = false) ∨
    (∃ part, (svg_to_png libs p o s fs).1 = fs.write o (File.blob part) ∧
      succeeds libs p o s = false) := by
  cases hp : producedImg libs p o s with
  | some img =>
    refine Or.inl ⟨img, ?_, (producedImg_dims libs hc p o s img hp).1,
      (producedImg_dims libs hc p o s img hp).2, by simp [succeeds, hp]⟩
    rw [svg_to_png_of_some libs p o s fs img hp]
  | none =>
    obtain ⟨_, hfs⟩ := svg_to_png_of_none libs p o s fs hp
    rcases hfs with h | ⟨part, h⟩
    · exact Or.inr (Or.inl ⟨h, by simp [succeeds, hp]⟩)
    · exact Or.inr (Or.inr ⟨part, h, by simp [succeeds, hp]⟩)

theorem c6_entry_atomicity_witness :
    (∃ img, (svg_to_png goodLibs svg_file "icons/icon16.png" 16 []).1
        = FS.write [] "icons/icon16.png" (File.png img) ∧
      img.width = 16 ∧ img.height = 16 ∧
      succeeds goodLibs svg_file "icons/icon16.png" 16 = true) ∨
    ((svg_to_png goodLibs svg_file "icons/icon16.png" 16 []).1 = ([] : FS) ∧
      succeeds goodLibs svg_file "icons/icon16.png" 16 = false) ∨
    (∃ part, (svg_to_png goodLibs svg_file "icons/icon16.png" 16 []).1
        = FS.write [] "icons/icon16.png" (File.blob part) ∧
      succeeds goodLibs svg_file "icons/icon16.png" 16 = false) :=
  c6_entry_atomicity goodLibs svg_file "icons/icon16.png" 16 [] goodLibs_dimContract

/-- C7: the run terminates normally (exit status 0) after emitting one
status event per entry whenever the libraries import and the source exists,
regardless of how many entries fail; it stops early only on missing
libraries (printing install guidance, exit status 1) or a missing source
(printing the not-found message), and in both early cases the filesystem is
unchanged, so no output files are produced. -/
theorem c7_exit_behavior :
    (∀ (libs : Libs) (b : Bool) (fs : FS),
      runScript libs false b fs = (fs, [Ev.depsMissing], 1)) ∧
    (∀ (libs : Libs) (fs : FS),
      runScript libs true false fs = (fs, [Ev.svgNotFound svg_file], 0)) ∧
    (∀ (libs : Libs) (fs : FS),
      (runScript libs true true fs).2.2 = 0 ∧
        ((runScript libs true true fs).2.1.filter isStatusEv).length
          = sizes.length) := by
  refine ⟨fun libs b fs => by simp [runScript],
    fun libs fs => by simp [runScript, main], fun libs fs => ⟨by simp [runScript], ?_⟩⟩
  simp only [runScript, if_true, main, List.filter_append, List.length_append]
  rw [runEntries_snd, count_status_map]
  simp [isStatusEv]

/-- C8: writing the result of an entry overwrites any existing file of the
same name, and one `svg_to_png` call — success or failure, truncating save
included — leaves the file at every other path unchanged (the source SVG is
only ever read, through the `svg2png` oracle, so it is untouched as well). -/
theorem c8_overwrite_and_frame :
    (∀ (fs : FS) (o : String) (f : File),
      FS.lookup (FS.write fs o f) o = some f) ∧
    (∀ (libs : Libs) (p o : String) (s : Nat) (fs : FS) (q : String), ¬q = o →
      FS.lookup ((svg_to_png libs p o s fs).1) q = FS.lookup fs q) :=
  ⟨lookup_write_self, fun libs p o s fs q h => svg_to_png_frame libs p o s fs q h⟩

theorem c8_overwrite_and_frame_witness :
    ((¬"icons/icon32.png" = "icons/icon16.png") ∧
      FS.lookup (FS.write [] "icons/icon16.png" (File.png ⟨16, 16, [0]⟩))
          "icons/icon16.png"
        = some (File.png ⟨16, 16, [0]⟩)) ∧
    FS.lookup ((svg_to_png goodLibs svg_file "icons/icon16.png" 16
        [("icons/icon32.png", File.png ⟨32, 32, [0]⟩)]).1) "icons/icon32.png"
      = FS.lookup [("icons/icon32.png", File.png ⟨32, 32, [0]⟩)] "icons/icon32.png" :=
  ⟨⟨by decide, c8_overwrite_and_frame.1 [] "icons/icon16.png" (File.png ⟨16, 16, [0]⟩)⟩,
   c8_overwrite_and_frame.2 goodLibs svg_file "icons/icon16.png" 16
     [("icons/icon32.png", File.png ⟨32, 32, [0]⟩)] "icons/icon32.png" (by decide)⟩

/-- C9: two runs over the same source with possibly different library
behaviour (encoded bytes may differ) produce, for any entry of the target
list that succeeds in both runs, well-formed output files of identical
width and height, both equal to the requested size — the mapping from
(source, size) to output dimensions is deterministic, given the sizing
contracts of the libraries. -/
theorem c9_deterministic_dimensions (libs1 libs2 : Libs) (fs1 fs2 : FS)
    (s : Nat) (fn : String)
    (hc1 : dimContract libs1) (hc2 : dimContract libs2)
    (hmem : (s, fn) ∈ sizes)
    (h1 : succeeds libs1 svg_file (icons_dir ++ "/" ++ fn) s = true)
    (h2 : succeeds libs2 svg_file (icons_dir ++ "/" ++ fn) s = true) :
    ∃ i1 i2,
      FS.lookup (main libs1 true fs1).1 (icons_dir ++ "/" ++ fn)
        = some (File.png i1) ∧
      FS.lookup (main libs2 true fs2).1 (icons_dir ++ "/" ++ fn)
        = some (File.png i2) ∧
      i1.width = i2.width ∧ i1.height = i2.height ∧
      i1.width = s ∧ i1.height = s := by
  unfold succeeds at h1 h2
  obtain ⟨i1, hi1⟩ := Option.isSome_iff_exists.1 h1
  obtain ⟨i2, hi2⟩ := Option.isSome_iff_exists.1 h2
  obtain ⟨w1, hh1⟩ := producedImg_dims libs1 hc1 svg_file (icons_dir ++ "/" ++ fn) s i1 hi1
  obtain ⟨w2, hh2⟩ := producedImg_dims libs2 hc2 svg_file (icons_dir ++ "/" ++ fn) s i2 hi2
  exact ⟨i1, i2, main_lookup_of_succeeds libs1 fs1 s fn i1 hmem hi1,
    main_lookup_of_succeeds libs2 fs2 s fn i2 hmem hi2,
    w1.trans w2.symm, hh1.trans hh2.symm, w1, hh1⟩

theorem c9_deterministic_dimensions_witness :
    ((32, "icon32.png") ∈ sizes ∧
      succeeds goodLibs svg_file (icons_dir ++ "/" ++ "icon32.png") 32 = true ∧
      succeeds otherLibs svg_file (icons_dir ++ "/" ++ "icon32.png") 32 = true) ∧
    ∃ i1 i2,
      FS.lookup (main goodLibs true []).1 (icons_dir ++ "/" ++ "icon32.png")
        = some (File.png i1) ∧
      FS.lookup (main otherLibs true []).1 (icons_dir ++ "/" ++ "icon32.png")
        = some (File.png i2) ∧
      i1.width = i2.width ∧ i1.height = i2.height ∧
      i1.width = 32 ∧ i1.height = 32 :=
  ⟨⟨by decide, rfl, rfl⟩,
   c9_deterministic_dimensions goodLibs otherLibs [] [] 32 "icon32.png"
     goodLibs_dimContract otherLibs_dimContract (by decide) rfl rfl⟩

/-- C10: whenever the source exists the transcript of `main` ends with the
completion trailer — whose literal lines are the blank line, the completion
banner and the manifest snippet mapping 16/32/48/128 to their icon paths —
for every library behaviour, including one where every entry fails; the
missing-source run still exits with status 0, and only the
missing-dependency path exits with status 1. -/
theorem c10_trailer_and_exit_status :
    (∀ (libs : Libs) (fs : FS), ∃ pre,
      (main libs true fs).2 = pre ++ [Ev.trailerEv]) ∧
    renderEv Ev.trailerEv
      = ["", "Icon generation complete!", "\nManifest.json icon configuration:",
         "\"icons\": \x7b",
         "  \"16\": \"icons/icon16.png\",",
         "  \"32\": \"icons/icon32.png\",",
         "  \"48\": \"icons/icon48.png\",",
         "  \"128\": \"icons/icon128.png\"",
         "\x7d"] ∧
    (∀ (fs : FS), (main failLibs true fs).2
        = [Ev.headerMain, Ev.headerSource svg_file, Ev.blank,
           Ev.failed "icons/icon16.png" "boom", Ev.failed "icons/icon32.png" "boom",
           Ev.failed "icons/icon48.png" "boom", Ev.failed "icons/icon128.png" "boom",
           Ev.failed "icons/icon256.png" "boom", Ev.failed "icons/icon440.png" "boom",
           Ev.trailerEv]) ∧
    (∀ (libs : Libs) (fs : FS), (runScript libs true false fs).2.2 = 0) ∧
    (∀ (libs : Libs) (b : Bool) (fs : FS), (runScript libs false b fs).2.2 = 1) ∧
    (∀ (libs : Libs) (fs : FS), (runScript libs true true fs).2.2 = 0) := by
  refine ⟨fun libs fs => ⟨[Ev.headerMain, Ev.headerSource svg_file, Ev.blank]
      ++ (runEntries libs fs sizes).2, by simp [main]⟩,
    rfl, fun fs => ?_, fun libs fs => by simp [runScript],
    fun libs b fs => by simp [runScript], fun libs fs => by simp [runScript]⟩
  simp only [main, if_true]
  rw [runEntries_snd]
  rfl

end GenIcons
